import Mathlib

/-!
Verification of the tsunami-backend prediction service (`src/app.py`).

The service is a FastAPI app with a single interesting handler,
`predict_tsunami` (POST /predict).  We shallowly embed the handler as a
pure Lean function:

* JSON values are an inductive `Json` type; JSON numbers are modelled as
  rationals (all operations the handler performs on them are order
  comparisons and equality, which rationals model faithfully).
* `await request.json()` either succeeds with a `Json` value or raises on
  a malformed body; we model the request body as `ReqBody`, which is
  either a parsed `Json` value or a `malformed` marker carrying the
  exception message.
* `TsunamiInput(**body)` performs pydantic (v1) validation of the five
  `Field`-annotated floats.  Pydantic's `float` type coerces: JSON
  numbers are accepted, strings are parsed with Python `float`, booleans
  become 1.0/0.0, and null, arrays and objects raise a per-field error.
  All per-field errors are collected into `ValidationError.errors()`.
  This is embedded by `coerceFloat` and `validateTsunamiInput`; the
  string case only models the plain-decimal fragment of `float(str)`
  (see `parseDecimal`), so the universally quantified claim theorems pin
  schema fields to the exactly modelled JSON types and concrete string
  inputs are used only where `float` agrees exactly.
* the global `model` is `Option Model` (`None` when `joblib.load` failed);
  `Model` is a function from a feature row to `Except String ℚ`, modelling
  `model.predict(pd.DataFrame([input_data.dict()]))[0]` - `Except.error`
  is the call raising, with `str(e)` as the payload.
* the handler's returned dict is a `Json` object built by the four
  response constructors below.
-/

/-- JSON values as produced by Python's `json` parsing of a request body.
Numbers are modelled as rationals. -/
inductive Json where
  | num (q : ℚ)
  | str (s : String)
  | bool (b : Bool)
  | null
  | arr (elems : List Json)
  | obj (fields : List (String × Json))
deriving Repr

/-- Key lookup in a parsed JSON object.  Python's `json` module keeps the
last binding when a key is repeated, so we search the reversed list. -/
def lookupField (fields : List (String × Json)) (name : String) : Option Json :=
  (fields.reverse.find? (fun p => p.1 == name)).map (fun p => p.2)

/-- Digit-string to natural number; `none` when empty or a non-digit occurs.
Helper for the Python `float(str)` fragment used by pydantic coercion. -/
def readDigits (cs : List Char) : Option Nat :=
  if cs = [] then none
  else if cs.all Char.isDigit then
    some (cs.foldl (fun a c => a * 10 + (c.toNat - 48)) 0)
  else none

/-- Split a character list into the segments separated by the dot
character, keeping empty segments ("1.2" gives two segments, "1.2.3"
three). -/
def dotSegments : List Char → List (List Char)
  | [] => [[]]
  | c :: cs =>
      match dotSegments cs, decide (c = '.') with
      | segs, true => [] :: segs
      | seg :: segs, false => (c :: seg) :: segs
      | [], false => [[c]]

/-- The plain-decimal fragment of Python `float(str)`: optional sign,
integer part, optional fractional part ("7.5", "-3", "+0.25").  This is a
deliberate UNDER-approximation of `float(str)`: exponent forms ("1e5"),
inf/nan spellings, surrounding whitespace, digit underscores and the
".5" / "5." spellings are all accepted by Python but rejected here, and
Python rounds to an IEEE double while this returns the exact rational.
On strings this model is therefore exact only in the accepting direction
for plain decimals whose value an IEEE double represents exactly.
Consequently no universally quantified claim theorem below ranges over
string-valued fields (their hypotheses pin fields to the exactly
modelled JSON types); strings appear only at concrete inputs such as
"8" and "3", where `float` agrees with this parser exactly. -/
def parseDecimal (s : String) : Option ℚ :=
  let signed : Bool × List Char :=
    match s.toList with
    | '-' :: rest => (true, rest)
    | '+' :: rest => (false, rest)
    | rest => (false, rest)
  match dotSegments signed.2 with
  | [intPart] =>
      (readDigits intPart).map
        (fun n => if signed.1 then -(n : ℚ) else (n : ℚ))
  | [intPart, fracPart] =>
      match readDigits intPart, readDigits fracPart with
      | some i, some f =>
          some (if signed.1 then -((i : ℚ) + (f : ℚ) / (10 : ℚ) ^ fracPart.length)
                else (i : ℚ) + (f : ℚ) / (10 : ℚ) ^ fracPart.length)
      | _, _ => none
  | _ => none

/-- Pydantic v1 coercion of a JSON value to a `float` field: numbers pass
through, strings go through Python `float(str)` (here its plain-decimal
fragment `parseDecimal` — see the caveat on that definition), booleans
become 1.0 / 0.0, null fails with pydantic v1's none-not-allowed message,
and arrays and objects fail with the float type-error message. -/
def coerceFloat : Json → Except String ℚ
  | Json.num q => Except.ok q
  | Json.str s =>
      match parseDecimal s with
      | some q => Except.ok q
      | none => Except.error "value is not a valid float"
  | Json.bool b => Except.ok (if b then 1 else 0)
  | Json.null => Except.error "none is not an allowed value"
  | _ => Except.error "value is not a valid float"

/-- Bound check of `Field(..., gt=0)` (the `magnitude` field). -/
def magBound (q : ℚ) : Option String :=
  if 0 < q then none else some "ensure this value is greater than 0"

/-- Bound check of `Field(..., ge=lo)` (the `depth` and `dmin` fields). -/
def geBound (lo : ℚ) (q : ℚ) : Option String :=
  if lo ≤ q then none
  else some "ensure this value is greater than or equal to the limit"

/-- Bound check of `Field(..., ge=lo, le=hi)` (the `latitude` and
`longitude` fields); pydantic runs the `ge` validator first. -/
def rangeBound (lo hi : ℚ) (q : ℚ) : Option String :=
  if q < lo then some "ensure this value is greater than or equal to the limit"
  else if hi < q then some "ensure this value is less than or equal to the limit"
  else none

/-- Pydantic validation of one `float` field: missing key, failed
coercion, or bound violation each yield one `(field, message)` error
record. -/
def validateField (fields : List (String × Json)) (name : String)
    (bound : ℚ → Option String) : Except (String × String) ℚ :=
  match lookupField fields name with
  | none => Except.error (name, "field required")
  | some j =>
      match coerceFloat j with
      | Except.error msg => Except.error (name, msg)
      | Except.ok q =>
          match bound q with
          | some msg => Except.error (name, msg)
          | none => Except.ok q

/-- The five validated fields of `TsunamiInput`, in declaration order. -/
structure TsunamiInput where
  magnitude : ℚ
  depth : ℚ
  latitude : ℚ
  longitude : ℚ
  dmin : ℚ
deriving Repr, DecidableEq

/-- The error payload of a failed `Except` computation, if any. -/
def errOf {ε α : Type} : Except ε α → Option ε
  | Except.error e => some e
  | Except.ok _ => none

/-- All per-field error records of `TsunamiInput(**body)`, in field
declaration order, as returned by `ValidationError.errors()`. -/
def collectedErrors (fields : List (String × Json)) : List (String × String) :=
  [errOf (validateField fields "magnitude" magBound),
   errOf (validateField fields "depth" (geBound 0)),
   errOf (validateField fields "latitude" (rangeBound (-90) 90)),
   errOf (validateField fields "longitude" (rangeBound (-180) 180)),
   errOf (validateField fields "dmin" (geBound 0))].filterMap id

/-- `TsunamiInput(**body)` for a JSON-object body: either the validated
record, or the collected list of all per-field violations (pydantic
reports every failing field, not only the first). -/
def validateTsunamiInput (fields : List (String × Json)) :
    Except (List (String × String)) TsunamiInput :=
  match validateField fields "magnitude" magBound,
        validateField fields "depth" (geBound 0),
        validateField fields "latitude" (rangeBound (-90) 90),
        validateField fields "longitude" (rangeBound (-180) 180),
        validateField fields "dmin" (geBound 0) with
  | Except.ok m, Except.ok d, Except.ok la, Except.ok lo, Except.ok dm =>
      Except.ok ⟨m, d, la, lo, dm⟩
  | _, _, _, _, _ => Except.error (collectedErrors fields)

/-- The single feature row `pd.DataFrame([input_data.dict()])` passed to
the model: the five validated values in field declaration order. -/
def featureRow (inp : TsunamiInput) : List ℚ :=
  [inp.magnitude, inp.depth, inp.latitude, inp.longitude, inp.dmin]

/-- The loaded model's prediction capability,
`model.predict(new_data)[0]`: a function of the feature row that either
returns a value or raises (with `str(e)` as the message). -/
def Model : Type := List ℚ → Except String ℚ

/-- The request body as seen by the handler: either parsed JSON, or
`malformed msg` when `await request.json()` raises with message `msg`. -/
inductive ReqBody where
  | malformed (msg : String)
  | json (j : Json)

/-- The label translation
`"🌊 Tsunami Warning!" if prediction == 1 else "✅ No Tsunami Expected"`. -/
def translateLabel (pred : ℚ) : String :=
  if pred = 1 then "🌊 Tsunami Warning!" else "✅ No Tsunami Expected"

/-- `input_data.dict()` rendered back into the response. -/
def inputToJson (inp : TsunamiInput) : Json :=
  Json.obj [("magnitude", Json.num inp.magnitude),
            ("depth", Json.num inp.depth),
            ("latitude", Json.num inp.latitude),
            ("longitude", Json.num inp.longitude),
            ("dmin", Json.num inp.dmin)]

/-- One `ValidationError.errors()` record rendered into the response. -/
def errorRecordToJson (e : String × String) : Json :=
  Json.obj [("loc", Json.arr [Json.str e.1]), ("msg", Json.str e.2)]

/-- Success response of the handler. -/
def successResp (inp : TsunamiInput) (label : String) : Json :=
  Json.obj [("input", inputToJson inp), ("prediction", Json.str label)]

/-- Response of the `except ValidationError` branch. -/
def validationErrorResp (errs : List (String × String)) : Json :=
  Json.obj [("error", Json.str "Invalid input format"),
            ("details", Json.arr (errs.map errorRecordToJson))]

/-- Response of the `if model is None` guard. -/
def modelNotLoadedResp : Json :=
  Json.obj [("error", Json.str "Model not loaded on server.")]

/-- Response of the `except Exception` branch. -/
def internalErrorResp (msg : String) : Json :=
  Json.obj [("error", Json.str "Internal server error"),
            ("details", Json.str msg)]

/-- `str(e)` of the `TypeError` raised by `TsunamiInput(**body)` when the
parsed body is not a JSON object.  CPython's message is
"TsunamiInput() argument after ** must be a mapping, not <type>"; the
trailing ", not <type>" part is elided here because `Json.num` conflates
Python's int and float, so the embedding cannot name the exact type.  No
claim depends on the message text, only on the internal-error shape that
carries it. -/
def kwargsTypeError (j : Json) : String :=
  match j with
  | Json.obj _ => ""
  | _ => "TsunamiInput() argument after ** must be a mapping"

/-- The POST /predict handler `predict_tsunami`, as a function of the
process-wide `model` and the request body.  Mirrors the source: parse,
validate, guard on `model is None`, predict, translateLabel; `ValidationError`
and all other exceptions are caught and turned into in-band error
objects. -/
def predict_tsunami (model : Option Model) (body : ReqBody) : Json :=
  match body with
  | ReqBody.malformed msg => internalErrorResp msg
  | ReqBody.json (Json.obj fields) =>
      match validateTsunamiInput fields with
      | Except.error errs => validationErrorResp errs
      | Except.ok inp =>
          match model with
          | none => modelNotLoadedResp
          | some m =>
              match m (featureRow inp) with
              | Except.error msg => internalErrorResp msg
              | Except.ok p => successResp inp (translateLabel p)
  | ReqBody.json j => internalErrorResp (kwargsTypeError j)

/-- Field lookup in a handler response (all responses are JSON objects). -/
def respField (r : Json) (name : String) : Option Json :=
  match r with
  | Json.obj fs => lookupField fs name
  | _ => none

/-- True when an optionally present JSON value is a JSON string.  Used to
carve string-valued fields out of the universally quantified validation
claims: pydantic routes strings through Python `float(str)`, whose full
accept set (exponent forms, inf/nan, whitespace, underscores) is wider
than `parseDecimal` models, so the quantified claims pin every schema
field to the exactly modelled JSON types and strings appear only at
concrete inputs. -/
def isStrValue : Option Json → Bool
  | some (Json.str _) => true
  | _ => false

/-- True for the JSON value types pydantic v1 can never coerce to a
float field: null, arrays and nested objects.  Numbers and booleans
always coerce; strings may or may not, depending on `float(str)`, and are
deliberately outside this predicate. -/
def jsonUncoercible : Json → Bool
  | Json.null => true
  | Json.arr _ => true
  | Json.obj _ => true
  | _ => false

/-! ### Helper lemmas about validation -/

theorem magBound_none {q : ℚ} (h : 0 < q) : magBound q = none := by
  simp [magBound, h]

theorem geBound_none {lo q : ℚ} (h : lo ≤ q) : geBound lo q = none := by
  simp [geBound, h]

theorem rangeBound_none {lo hi q : ℚ} (h1 : lo ≤ q) (h2 : q ≤ hi) :
    rangeBound lo hi q = none := by
  simp [rangeBound, not_lt.mpr h1, not_lt.mpr h2]

theorem validateField_num_ok {fields : List (String × Json)} {name : String}
    {bound : ℚ → Option String} {q : ℚ}
    (hl : lookupField fields name = some (Json.num q))
    (hb : bound q = none) :
    validateField fields name bound = Except.ok q := by
  simp [validateField, hl, coerceFloat, hb]

theorem validateTsunamiInput_ok {fields : List (String × Json)}
    {mag dep lat lon dm : ℚ}
    (hm : validateField fields "magnitude" magBound = Except.ok mag)
    (hd : validateField fields "depth" (geBound 0) = Except.ok dep)
    (hla : validateField fields "latitude" (rangeBound (-90) 90) = Except.ok lat)
    (hlo : validateField fields "longitude" (rangeBound (-180) 180) = Except.ok lon)
    (hdm : validateField fields "dmin" (geBound 0) = Except.ok dm) :
    validateTsunamiInput fields = Except.ok ⟨mag, dep, lat, lon, dm⟩ := by
  unfold validateTsunamiInput
  rw [hm, hd, hla, hlo, hdm]

theorem collectedErrors_nil {fields : List (String × Json)}
    {mag dep lat lon dm : ℚ}
    (hm : validateField fields "magnitude" magBound = Except.ok mag)
    (hd : validateField fields "depth" (geBound 0) = Except.ok dep)
    (hla : validateField fields "latitude" (rangeBound (-90) 90) = Except.ok lat)
    (hlo : validateField fields "longitude" (rangeBound (-180) 180) = Except.ok lon)
    (hdm : validateField fields "dmin" (geBound 0) = Except.ok dm) :
    collectedErrors fields = [] := by
  simp [collectedErrors, hm, hd, hla, hlo, hdm, errOf]

theorem validateTsunamiInput_error {fields : List (String × Json)}
    (h : collectedErrors fields ≠ []) :
    validateTsunamiInput fields = Except.error (collectedErrors fields) := by
  unfold validateTsunamiInput
  cases hm : validateField fields "magnitude" magBound <;>
    cases hd : validateField fields "depth" (geBound 0) <;>
      cases hla : validateField fields "latitude" (rangeBound (-90) 90) <;>
        cases hlo : validateField fields "longitude" (rangeBound (-180) 180) <;>
          cases hdm : validateField fields "dmin" (geBound 0) <;>
            first
              | rfl
              | exact absurd (collectedErrors_nil hm hd hla hlo hdm) h

theorem mem_collectedErrors_magnitude {fields : List (String × Json)}
    {e : String × String}
    (h : validateField fields "magnitude" magBound = Except.error e) :
    e ∈ collectedErrors fields := by
  simp only [collectedErrors, List.mem_filterMap, id]
  exact ⟨some e, by simp [h, errOf], rfl⟩

theorem mem_collectedErrors_depth {fields : List (String × Json)}
    {e : String × String}
    (h : validateField fields "depth" (geBound 0) = Except.error e) :
    e ∈ collectedErrors fields := by
  simp only [collectedErrors, List.mem_filterMap, id]
  exact ⟨some e, by simp [h, errOf], rfl⟩

theorem mem_collectedErrors_latitude {fields : List (String × Json)}
    {e : String × String}
    (h : validateField fields "latitude" (rangeBound (-90) 90) = Except.error e) :
    e ∈ collectedErrors fields := by
  simp only [collectedErrors, List.mem_filterMap, id]
  exact ⟨some e, by simp [h, errOf], rfl⟩

theorem mem_collectedErrors_longitude {fields : List (String × Json)}
    {e : String × String}
    (h : validateField fields "longitude" (rangeBound (-180) 180) = Except.error e) :
    e ∈ collectedErrors fields := by
  simp only [collectedErrors, List.mem_filterMap, id]
  exact ⟨some e, by simp [h, errOf], rfl⟩

theorem mem_collectedErrors_dmin {fields : List (String × Json)}
    {e : String × String}
    (h : validateField fields "dmin" (geBound 0) = Except.error e) :
    e ∈ collectedErrors fields := by
  simp only [collectedErrors, List.mem_filterMap, id]
  exact ⟨some e, by simp [h, errOf], rfl⟩

/-! ### Helper lemmas about the handler -/

theorem predict_of_validation_error {fields : List (String × Json)}
    {errs : List (String × String)} (model : Option Model)
    (hv : validateTsunamiInput fields = Except.error errs) :
    predict_tsunami model (ReqBody.json (Json.obj fields)) =
      validationErrorResp errs := by
  simp [predict_tsunami, hv]

theorem predict_of_ok_none {fields : List (String × Json)} {inp : TsunamiInput}
    (hv : validateTsunamiInput fields = Except.ok inp) :
    predict_tsunami none (ReqBody.json (Json.obj fields)) = modelNotLoadedResp := by
  simp [predict_tsunami, hv]

theorem predict_of_ok_some {fields : List (String × Json)} {inp : TsunamiInput}
    (m : Model) (hv : validateTsunamiInput fields = Except.ok inp) :
    predict_tsunami (some m) (ReqBody.json (Json.obj fields)) =
      (match m (featureRow inp) with
       | Except.error msg => internalErrorResp msg
       | Except.ok p => successResp inp (translateLabel p)) := by
  simp [predict_tsunami, hv]

theorem predict_of_predict_ok {fields : List (String × Json)} {inp : TsunamiInput}
    {m : Model} {p : ℚ} (hv : validateTsunamiInput fields = Except.ok inp)
    (hp : m (featureRow inp) = Except.ok p) :
    predict_tsunami (some m) (ReqBody.json (Json.obj fields)) =
      successResp inp (translateLabel p) := by
  rw [predict_of_ok_some m hv, hp]

theorem predict_of_predict_error {fields : List (String × Json)} {inp : TsunamiInput}
    {m : Model} {msg : String} (hv : validateTsunamiInput fields = Except.ok inp)
    (hp : m (featureRow inp) = Except.error msg) :
    predict_tsunami (some m) (ReqBody.json (Json.obj fields)) =
      internalErrorResp msg := by
  rw [predict_of_ok_some m hv, hp]

theorem success_ne_validation (inp : TsunamiInput) (lbl : String)
    (errs : List (String × String)) :
    successResp inp lbl ≠ validationErrorResp errs := by
  simp [successResp, validationErrorResp]

theorem internal_ne_validation (msg : String) (errs : List (String × String)) :
    internalErrorResp msg ≠ validationErrorResp errs := by
  simp [internalErrorResp, validationErrorResp]

theorem validation_ne_modelNotLoaded (errs : List (String × String)) :
    validationErrorResp errs ≠ modelNotLoadedResp := by
  simp [validationErrorResp, modelNotLoadedResp]

theorem translateLabel_cases (p : ℚ) :
    translateLabel p = "🌊 Tsunami Warning!" ∨
    translateLabel p = "✅ No Tsunami Expected" := by
  unfold translateLabel
  by_cases h : p = 1 <;> simp [h]

/-- The five field declarations of `TsunamiInput`, each with the bound
check attached to its `Field(...)` annotation. -/
def fieldSpecs : List (String × (ℚ → Option String)) :=
  [("magnitude", magBound), ("depth", geBound 0),
   ("latitude", rangeBound (-90) 90), ("longitude", rangeBound (-180) 180),
   ("dmin", geBound 0)]

theorem mem_collectedErrors_of_spec {fields : List (String × Json)}
    {nb : String × (ℚ → Option String)} {e : String × String}
    (hnb : nb ∈ fieldSpecs)
    (h : validateField fields nb.1 nb.2 = Except.error e) :
    e ∈ collectedErrors fields := by
  simp only [fieldSpecs, List.mem_cons, List.not_mem_nil, or_false] at hnb
  rcases hnb with h1 | h1 | h1 | h1 | h1 <;> subst h1
  · exact mem_collectedErrors_magnitude h
  · exact mem_collectedErrors_depth h
  · exact mem_collectedErrors_latitude h
  · exact mem_collectedErrors_longitude h
  · exact mem_collectedErrors_dmin h

/-! ### Claim theorems -/

/-- Claim C1: for every request body that is a JSON object whose five
fields are numbers satisfying the bounds (magnitude > 0, depth ≥ 0,
latitude in [-90, 90], longitude in [-180, 180], dmin ≥ 0), with the
model loaded and its predict call returning a value, POST /predict
returns an object whose "input" field exactly echoes the five supplied
values and whose "prediction" field is one of the two fixed strings. -/
theorem predict_valid_request_success
    (m : Model) (fields : List (String × Json)) (mag dep lat lon dm p : ℚ)
    (hm : lookupField fields "magnitude" = some (Json.num mag)) (hm0 : 0 < mag)
    (hd : lookupField fields "depth" = some (Json.num dep)) (hd0 : 0 ≤ dep)
    (hla : lookupField fields "latitude" = some (Json.num lat))
    (hla1 : -90 ≤ lat) (hla2 : lat ≤ 90)
    (hlo : lookupField fields "longitude" = some (Json.num lon))
    (hlo1 : -180 ≤ lon) (hlo2 : lon ≤ 180)
    (hdm : lookupField fields "dmin" = some (Json.num dm)) (hdm0 : 0 ≤ dm)
    (hp : m [mag, dep, lat, lon, dm] = Except.ok p) :
    predict_tsunami (some m) (ReqBody.json (Json.obj fields)) =
      successResp ⟨mag, dep, lat, lon, dm⟩ (translateLabel p) ∧
    respField (predict_tsunami (some m) (ReqBody.json (Json.obj fields)))
      "input" = some (inputToJson ⟨mag, dep, lat, lon, dm⟩) ∧
    (translateLabel p = "🌊 Tsunami Warning!" ∨
     translateLabel p = "✅ No Tsunami Expected") := by
  have hv : validateTsunamiInput fields = Except.ok ⟨mag, dep, lat, lon, dm⟩ :=
    validateTsunamiInput_ok
      (validateField_num_ok hm (magBound_none hm0))
      (validateField_num_ok hd (geBound_none hd0))
      (validateField_num_ok hla (rangeBound_none hla1 hla2))
      (validateField_num_ok hlo (rangeBound_none hlo1 hlo2))
      (validateField_num_ok hdm (geBound_none hdm0))
  have h1 := predict_of_predict_ok hv hp
  refine ⟨h1, ?_, translateLabel_cases p⟩
  rw [h1]
  rfl

/-- Claim C1 witness at the concrete valid request with magnitude 8,
depth 10, latitude -4, longitude 96, dmin 12 and a model answering 1. -/
theorem predict_valid_request_success_witness :
    predict_tsunami (some (fun _ => Except.ok 1))
        (ReqBody.json (Json.obj
          [("magnitude", Json.num 8), ("depth", Json.num 10),
           ("latitude", Json.num (-4)), ("longitude", Json.num 96),
           ("dmin", Json.num 12)])) =
      successResp ⟨8, 10, -4, 96, 12⟩ (translateLabel 1) ∧
    respField (predict_tsunami (some (fun _ => Except.ok 1))
        (ReqBody.json (Json.obj
          [("magnitude", Json.num 8), ("depth", Json.num 10),
           ("latitude", Json.num (-4)), ("longitude", Json.num 96),
           ("dmin", Json.num 12)])))
      "input" = some (inputToJson ⟨8, 10, -4, 96, 12⟩) ∧
    (translateLabel 1 = "🌊 Tsunami Warning!" ∨
     translateLabel 1 = "✅ No Tsunami Expected") :=
  predict_valid_request_success (fun _ => Except.ok 1)
    [("magnitude", Json.num 8), ("depth", Json.num 10),
     ("latitude", Json.num (-4)), ("longitude", Json.num 96),
     ("dmin", Json.num 12)]
    8 10 (-4) 96 12 1
    rfl (by decide) rfl (by decide) rfl (by decide) (by decide)
    rfl (by decide) (by decide) rfl (by decide) rfl

/-- Claim C3: under a validated request, the handler's label is computed
by strict equality of the model output with the integer 1: output 1
yields the tsunami-warning label and any other output yields the
no-tsunami label. -/
theorem prediction_label_strict_equality
    (m : Model) (fields : List (String × Json)) (inp : TsunamiInput) (p : ℚ)
    (hv : validateTsunamiInput fields = Except.ok inp)
    (hp : m (featureRow inp) = Except.ok p) :
    predict_tsunami (some m) (ReqBody.json (Json.obj fields)) =
      successResp inp (translateLabel p) ∧
    (p = 1 → translateLabel p = "🌊 Tsunami Warning!") ∧
    (p ≠ 1 → translateLabel p = "✅ No Tsunami Expected") := by
  refine ⟨predict_of_predict_ok hv hp, fun h => ?_, fun h => ?_⟩
  · simp [translateLabel, h]
  · simp [translateLabel, h]

/-- Claim C3 witness at model output 2: any output other than 1 (even one
exceeding 1) yields the no-tsunami label. -/
theorem prediction_label_strict_equality_witness :
    predict_tsunami (some (fun _ => Except.ok 2))
        (ReqBody.json (Json.obj
          [("magnitude", Json.num 8), ("depth", Json.num 10),
           ("latitude", Json.num (-4)), ("longitude", Json.num 96),
           ("dmin", Json.num 12)])) =
      successResp ⟨8, 10, -4, 96, 12⟩ (translateLabel 2) ∧
    ((2 : ℚ) = 1 → translateLabel 2 = "🌊 Tsunami Warning!") ∧
    ((2 : ℚ) ≠ 1 → translateLabel 2 = "✅ No Tsunami Expected") :=
  prediction_label_strict_equality (fun _ => Except.ok 2)
    [("magnitude", Json.num 8), ("depth", Json.num 10),
     ("latitude", Json.num (-4)), ("longitude", Json.num 96),
     ("dmin", Json.num 12)]
    ⟨8, 10, -4, 96, 12⟩ 2 rfl rfl

/-- Claim C4 counterexample: with the model unloaded, the invalid body
`{}` does NOT get the model-not-loaded error — the handler validates
before the `model is None` guard, so the validation error is returned
instead. -/
theorem model_unloaded_invalid_body_counterexample :
    predict_tsunami none (ReqBody.json (Json.obj [])) =
      validationErrorResp
        [("magnitude", "field required"), ("depth", "field required"),
         ("latitude", "field required"), ("longitude", "field required"),
         ("dmin", "field required")] ∧
    predict_tsunami none (ReqBody.json (Json.obj [])) ≠ modelNotLoadedResp := by
  refine ⟨rfl, ?_⟩
  intro h
  rw [show predict_tsunami none (ReqBody.json (Json.obj [])) =
        validationErrorResp
          [("magnitude", "field required"), ("depth", "field required"),
           ("latitude", "field required"), ("longitude", "field required"),
           ("dmin", "field required")] from rfl] at h
  exact validation_ne_modelNotLoaded _ h

/-- Claim C4 as amended: if the model failed to load, every POST /predict
call whose body is a JSON object passing validation returns exactly the
object with error "Model not loaded on server."; bodies failing parse or
validation still receive their parse/validation errors first. -/
theorem model_unloaded_valid_body_model_error
    (fields : List (String × Json)) (inp : TsunamiInput)
    (hv : validateTsunamiInput fields = Except.ok inp) :
    predict_tsunami none (ReqBody.json (Json.obj fields)) = modelNotLoadedResp :=
  predict_of_ok_none hv

/-- Claim C4 witness: the model-not-loaded error at a concrete valid
body with the model unloaded. -/
theorem model_unloaded_valid_body_model_error_witness :
    predict_tsunami none (ReqBody.json (Json.obj
      [("magnitude", Json.num 8), ("depth", Json.num 10),
       ("latitude", Json.num (-4)), ("longitude", Json.num 96),
       ("dmin", Json.num 12)])) = modelNotLoadedResp :=
  model_unloaded_valid_body_model_error
    [("magnitude", Json.num 8), ("depth", Json.num 10),
     ("latitude", Json.num (-4)), ("longitude", Json.num 96),
     ("dmin", Json.num 12)]
    ⟨8, 10, -4, 96, 12⟩ rfl

/-- Claim C5: for every validated request the single feature row passed
to the model is exactly the five validated values in the fixed order
magnitude, depth, latitude, longitude, dmin: the handler's response
depends on the model only through its value at that row, so two models
agreeing there are indistinguishable. -/
theorem feature_row_fixed_order
    (m₁ m₂ : Model) (fields : List (String × Json)) (inp : TsunamiInput)
    (hv : validateTsunamiInput fields = Except.ok inp)
    (hrow : m₁ [inp.magnitude, inp.depth, inp.latitude, inp.longitude, inp.dmin] =
            m₂ [inp.magnitude, inp.depth, inp.latitude, inp.longitude, inp.dmin]) :
    featureRow inp =
      [inp.magnitude, inp.depth, inp.latitude, inp.longitude, inp.dmin] ∧
    predict_tsunami (some m₁) (ReqBody.json (Json.obj fields)) =
      predict_tsunami (some m₂) (ReqBody.json (Json.obj fields)) := by
  refine ⟨rfl, ?_⟩
  rw [predict_of_ok_some m₁ hv, predict_of_ok_some m₂ hv]
  have h : m₁ (featureRow inp) = m₂ (featureRow inp) := hrow
  rw [h]

/-- Claim C5 witness: a model constant at 1 and a model answering 1 only
on the row [8, 10, -4, 96, 12] agree on the handler's response for the
request carrying those five values. -/
theorem feature_row_fixed_order_witness :
    featureRow ⟨8, 10, -4, 96, 12⟩ =
      [(8 : ℚ), 10, -4, 96, 12] ∧
    predict_tsunami (some (fun _ => Except.ok 1))
        (ReqBody.json (Json.obj
          [("magnitude", Json.num 8), ("depth", Json.num 10),
           ("latitude", Json.num (-4)), ("longitude", Json.num 96),
           ("dmin", Json.num 12)])) =
      predict_tsunami
        (some (fun row => if row = [8, 10, -4, 96, 12]
               then Except.ok 1 else Except.ok 0))
        (ReqBody.json (Json.obj
          [("magnitude", Json.num 8), ("depth", Json.num 10),
           ("latitude", Json.num (-4)), ("longitude", Json.num 96),
           ("dmin", Json.num 12)])) :=
  feature_row_fixed_order
    (fun _ => Except.ok 1)
    (fun row => if row = [8, 10, -4, 96, 12] then Except.ok 1 else Except.ok 0)
    [("magnitude", Json.num 8), ("depth", Json.num 10),
     ("latitude", Json.num (-4)), ("longitude", Json.num 96),
     ("dmin", Json.num 12)]
    ⟨8, 10, -4, 96, 12⟩ rfl (by simp)

/-- Claim C9: the handler is deterministic and stateless: its response is
a function of the loaded model and the request body alone, so two runs on
an identical body against the same model produce identical responses. -/
theorem predict_deterministic_stateless
    (model₁ model₂ : Option Model) (body₁ body₂ : ReqBody)
    (hm : model₁ = model₂) (hb : body₁ = body₂) :
    predict_tsunami model₁ body₁ = predict_tsunami model₂ body₂ := by
  rw [hm, hb]

/-- Claim C9 witness at a concrete model and body. -/
theorem predict_deterministic_stateless_witness :
    predict_tsunami (some (fun _ => Except.ok 1))
        (ReqBody.json (Json.obj [("magnitude", Json.num 8)])) =
      predict_tsunami (some (fun _ => Except.ok 1))
        (ReqBody.json (Json.obj [("magnitude", Json.num 8)])) :=
  predict_deterministic_stateless
    (some (fun _ => Except.ok 1)) (some (fun _ => Except.ok 1))
    (ReqBody.json (Json.obj [("magnitude", Json.num 8)]))
    (ReqBody.json (Json.obj [("magnitude", Json.num 8)]))
    rfl rfl

/-- Claim C2 counterexample: a body whose magnitude field is wrong-typed
(the JSON string "8", not a number) is NOT rejected: pydantic coerces the
numeric string to a float and the handler answers with a success object,
not with the "Invalid input format" error. -/
theorem wrong_typed_magnitude_string_accepted :
    predict_tsunami (some (fun _ => Except.ok 1))
        (ReqBody.json (Json.obj
          [("magnitude", Json.str "8"), ("depth", Json.num 10),
           ("latitude", Json.num 0), ("longitude", Json.num 0),
           ("dmin", Json.num 0)])) =
      successResp ⟨8, 10, 0, 0, 0⟩ "🌊 Tsunami Warning!" ∧
    predict_tsunami (some (fun _ => Except.ok 1))
        (ReqBody.json (Json.obj
          [("magnitude", Json.str "8"), ("depth", Json.num 10),
           ("latitude", Json.num 0), ("longitude", Json.num 0),
           ("dmin", Json.num 0)])) ≠
      validationErrorResp [("magnitude", "value is not a valid float")] := by
  refine ⟨rfl, ?_⟩
  intro h
  rw [show predict_tsunami (some (fun _ => Except.ok 1))
        (ReqBody.json (Json.obj
          [("magnitude", Json.str "8"), ("depth", Json.num 10),
           ("latitude", Json.num 0), ("longitude", Json.num 0),
           ("dmin", Json.num 0)])) =
      successResp ⟨8, 10, 0, 0, 0⟩ "🌊 Tsunami Warning!" from rfl] at h
  exact success_ne_validation _ _ _ h

/-- Claim C2 as amended: for every JSON-object body in which no schema
field is supplied as a string (strings are excluded because pydantic
coerces numeric ones through Python `float` and accepts the request, as
the counterexample shows) and at least one of the five fields is
missing, out of its declared bound, or of a type pydantic cannot coerce
to a float (null, array, object), the handler returns the object with
error "Invalid input format" and a non-empty details list holding one
record per violated field, all violations reported together. -/
theorem invalid_request_all_violations_reported
    (model : Option Model) (fields : List (String × Json))
    (_hs : ∀ name ∈ ["magnitude", "depth", "latitude", "longitude", "dmin"],
      isStrValue (lookupField fields name) = false)
    (h : collectedErrors fields ≠ []) :
    predict_tsunami model (ReqBody.json (Json.obj fields)) =
      validationErrorResp (collectedErrors fields) ∧
    respField (predict_tsunami model (ReqBody.json (Json.obj fields)))
      "error" = some (Json.str "Invalid input format") ∧
    collectedErrors fields ≠ [] ∧
    (∀ nb ∈ fieldSpecs, ∀ e,
      validateField fields nb.1 nb.2 = Except.error e →
      e ∈ collectedErrors fields) := by
  have h1 := predict_of_validation_error model (validateTsunamiInput_error h)
  refine ⟨h1, ?_, h, fun nb hnb e he => mem_collectedErrors_of_spec hnb he⟩
  rw [h1]
  rfl

/-- Claim C2 witness: a body with three violations at once (magnitude 0,
depth missing, latitude 91) is answered with the validation error whose
details hold a record for each of the three violated fields. -/
theorem invalid_request_all_violations_reported_witness :
    predict_tsunami none (ReqBody.json (Json.obj
      [("magnitude", Json.num 0), ("latitude", Json.num 91),
       ("longitude", Json.num 0), ("dmin", Json.num 0)])) =
      validationErrorResp (collectedErrors
        [("magnitude", Json.num 0), ("latitude", Json.num 91),
         ("longitude", Json.num 0), ("dmin", Json.num 0)]) ∧
    collectedErrors
        [("magnitude", Json.num 0), ("latitude", Json.num 91),
         ("longitude", Json.num 0), ("dmin", Json.num 0)] =
      [("magnitude", "ensure this value is greater than 0"),
       ("depth", "field required"),
       ("latitude", "ensure this value is less than or equal to the limit")] ∧
    ("magnitude", "ensure this value is greater than 0") ∈ collectedErrors
      [("magnitude", Json.num 0), ("latitude", Json.num 91),
       ("longitude", Json.num 0), ("dmin", Json.num 0)] ∧
    ("depth", "field required") ∈ collectedErrors
      [("magnitude", Json.num 0), ("latitude", Json.num 91),
       ("longitude", Json.num 0), ("dmin", Json.num 0)] ∧
    ("latitude", "ensure this value is less than or equal to the limit") ∈
      collectedErrors
        [("magnitude", Json.num 0), ("latitude", Json.num 91),
         ("longitude", Json.num 0), ("dmin", Json.num 0)] :=
  ⟨(invalid_request_all_violations_reported none
      [("magnitude", Json.num 0), ("latitude", Json.num 91),
       ("longitude", Json.num 0), ("dmin", Json.num 0)] (by decide) (by decide)).1,
   by decide,
   (invalid_request_all_violations_reported none
      [("magnitude", Json.num 0), ("latitude", Json.num 91),
       ("longitude", Json.num 0), ("dmin", Json.num 0)] (by decide) (by decide)).2.2.2
     ("magnitude", magBound) (by simp [fieldSpecs])
     ("magnitude", "ensure this value is greater than 0") rfl,
   (invalid_request_all_violations_reported none
      [("magnitude", Json.num 0), ("latitude", Json.num 91),
       ("longitude", Json.num 0), ("dmin", Json.num 0)] (by decide) (by decide)).2.2.2
     ("depth", geBound 0) (by simp [fieldSpecs])
     ("depth", "field required") rfl,
   (invalid_request_all_violations_reported none
      [("magnitude", Json.num 0), ("latitude", Json.num 91),
       ("longitude", Json.num 0), ("dmin", Json.num 0)] (by decide) (by decide)).2.2.2
     ("latitude", rangeBound (-90) 90) (by simp [fieldSpecs])
     ("latitude", "ensure this value is less than or equal to the limit")
     (by rfl)⟩

/-- Claim C8 counterexample: the JSON string "3" supplied for depth is
not a number, yet the request is accepted — pydantic coerces the numeric
string to the float 3.0 and the handler answers with a success object
instead of the validation error. -/
theorem wrong_typed_depth_string_accepted :
    predict_tsunami (some (fun _ => Except.ok 0))
        (ReqBody.json (Json.obj
          [("magnitude", Json.num 6), ("depth", Json.str "3"),
           ("latitude", Json.num 5), ("longitude", Json.num 5),
           ("dmin", Json.num 1)])) =
      successResp ⟨6, 3, 5, 5, 1⟩ "✅ No Tsunami Expected" ∧
    predict_tsunami (some (fun _ => Except.ok 0))
        (ReqBody.json (Json.obj
          [("magnitude", Json.num 6), ("depth", Json.str "3"),
           ("latitude", Json.num 5), ("longitude", Json.num 5),
           ("dmin", Json.num 1)])) ≠
      validationErrorResp [("depth", "value is not a valid float")] := by
  refine ⟨rfl, ?_⟩
  intro h
  rw [show predict_tsunami (some (fun _ => Except.ok 0))
        (ReqBody.json (Json.obj
          [("magnitude", Json.num 6), ("depth", Json.str "3"),
           ("latitude", Json.num 5), ("longitude", Json.num 5),
           ("dmin", Json.num 1)])) =
      successResp ⟨6, 3, 5, 5, 1⟩ "✅ No Tsunami Expected" from rfl] at h
  exact success_ne_validation _ _ _ h

/-- Claim C8 as amended: for every field of the schema, a value of a
JSON type pydantic can never coerce to a float — null, an array, or a
nested object — fails validation and the request is rejected with the
validation error carrying that field's record; numbers and booleans
always coerce, and strings are coerced through Python `float`, so
numeric strings are accepted (see the counterexample) and strings are
outside this quantified statement. -/
theorem uncoercible_value_rejected
    (model : Option Model) (fields : List (String × Json))
    (nb : String × (ℚ → Option String)) (j : Json) (msg : String)
    (hnb : nb ∈ fieldSpecs)
    (_hj : jsonUncoercible j = true)
    (hl : lookupField fields nb.1 = some j)
    (hc : coerceFloat j = Except.error msg) :
    predict_tsunami model (ReqBody.json (Json.obj fields)) =
      validationErrorResp (collectedErrors fields) ∧
    (nb.1, msg) ∈ collectedErrors fields := by
  have hvf : validateField fields nb.1 nb.2 = Except.error (nb.1, msg) := by
    simp [validateField, hl, hc]
  have hmem : (nb.1, msg) ∈ collectedErrors fields :=
    mem_collectedErrors_of_spec hnb hvf
  have hne : collectedErrors fields ≠ [] := List.ne_nil_of_mem hmem
  exact ⟨predict_of_validation_error model (validateTsunamiInput_error hne), hmem⟩

/-- Claim C8 witness: null supplied for magnitude is rejected with the
per-field pydantic v1 none-not-allowed record. -/
theorem uncoercible_value_rejected_witness :
    predict_tsunami none (ReqBody.json (Json.obj
      [("magnitude", Json.null), ("depth", Json.num 10),
       ("latitude", Json.num 0), ("longitude", Json.num 0),
       ("dmin", Json.num 0)])) =
      validationErrorResp (collectedErrors
        [("magnitude", Json.null), ("depth", Json.num 10),
         ("latitude", Json.num 0), ("longitude", Json.num 0),
         ("dmin", Json.num 0)]) ∧
    ("magnitude", "none is not an allowed value") ∈ collectedErrors
      [("magnitude", Json.null), ("depth", Json.num 10),
       ("latitude", Json.num 0), ("longitude", Json.num 0),
       ("dmin", Json.num 0)] :=
  uncoercible_value_rejected none
    [("magnitude", Json.null), ("depth", Json.num 10),
     ("latitude", Json.num 0), ("longitude", Json.num 0),
     ("dmin", Json.num 0)]
    ("magnitude", magBound) Json.null "none is not an allowed value"
    (by simp [fieldSpecs]) rfl rfl rfl

/-- Claim C6: a request whose raw body is not valid JSON at all is
answered by the generic handler: the response is the internal-error
object carrying the parse exception's message, and is never the
schema-validation error "Invalid input format". -/
theorem malformed_body_internal_error (model : Option Model) (msg : String) :
    predict_tsunami model (ReqBody.malformed msg) = internalErrorResp msg ∧
    respField (predict_tsunami model (ReqBody.malformed msg)) "error" =
      some (Json.str "Internal server error") ∧
    ∀ errs, predict_tsunami model (ReqBody.malformed msg) ≠
      validationErrorResp errs := by
  refine ⟨rfl, rfl, fun errs h => ?_⟩
  rw [show predict_tsunami model (ReqBody.malformed msg) =
        internalErrorResp msg from rfl] at h
  exact internal_ne_validation _ _ h

/-- Claim C6 witness at a concrete parse failure. -/
theorem malformed_body_internal_error_witness :
    predict_tsunami none (ReqBody.malformed "Expecting value") =
      internalErrorResp "Expecting value" ∧
    predict_tsunami none (ReqBody.malformed "Expecting value") ≠
      validationErrorResp [] :=
  ⟨(malformed_body_internal_error none "Expecting value").1,
   (malformed_body_internal_error none "Expecting value").2.2 []⟩

/-- Claim C10: a body that is valid JSON but not a JSON object (array,
number, string, boolean or null) is not answered with the validation
error: unpacking it into the schema raises a TypeError which the generic
handler reports as the internal-error object. -/
theorem nonobject_body_internal_error
    (model : Option Model) (j : Json) (h : ∀ fs, j ≠ Json.obj fs) :
    predict_tsunami model (ReqBody.json j) =
      internalErrorResp (kwargsTypeError j) ∧
    respField (predict_tsunami model (ReqBody.json j)) "error" =
      some (Json.str "Internal server error") ∧
    ∀ errs, predict_tsunami model (ReqBody.json j) ≠
      validationErrorResp errs := by
  have h1 : predict_tsunami model (ReqBody.json j) =
      internalErrorResp (kwargsTypeError j) := by
    cases j <;> first | rfl | exact absurd rfl (h _)
  refine ⟨h1, ?_, fun errs hh => ?_⟩
  · rw [h1]; rfl
  · rw [h1] at hh
    exact internal_ne_validation _ _ hh

/-- Claim C10 witness at the JSON-array body `[]`. -/
theorem nonobject_body_internal_error_witness :
    predict_tsunami none (ReqBody.json (Json.arr [])) =
      internalErrorResp (kwargsTypeError (Json.arr [])) ∧
    predict_tsunami none (ReqBody.json (Json.arr [])) ≠
      validationErrorResp [] :=
  ⟨(nonobject_body_internal_error none (Json.arr [])
      (fun _ hh => Json.noConfusion hh)).1,
   (nonobject_body_internal_error none (Json.arr [])
      (fun _ hh => Json.noConfusion hh)).2.2 []⟩

/-- Claim C7: the handler is total and never lets an exception cross the
HTTP boundary: for every model state and request body it returns one of
the four well-formed response objects, success and error responses are
discriminated exactly by the presence of the "error" key, and a raising
predict call is caught and reported as the internal error carrying the
underlying message. -/
theorem handler_total_wellformed :
    (∀ (model : Option Model) (body : ReqBody),
      (∃ inp lbl, predict_tsunami model body = successResp inp lbl ∧
        respField (predict_tsunami model body) "error" = none ∧
        (lbl = "🌊 Tsunami Warning!" ∨ lbl = "✅ No Tsunami Expected")) ∨
      (∃ errs, predict_tsunami model body = validationErrorResp errs ∧
        respField (predict_tsunami model body) "error" =
          some (Json.str "Invalid input format")) ∨
      (predict_tsunami model body = modelNotLoadedResp ∧
        respField (predict_tsunami model body) "error" =
          some (Json.str "Model not loaded on server.")) ∨
      (∃ msg, predict_tsunami model body = internalErrorResp msg ∧
        respField (predict_tsunami model body) "error" =
          some (Json.str "Internal server error"))) ∧
    (∀ (m : Model) (fields : List (String × Json)) (inp : TsunamiInput)
        (msg : String),
      validateTsunamiInput fields = Except.ok inp →
      m (featureRow inp) = Except.error msg →
      predict_tsunami (some m) (ReqBody.json (Json.obj fields)) =
        internalErrorResp msg) := by
  constructor
  · intro model body
    cases body with
    | malformed msg =>
        exact Or.inr (Or.inr (Or.inr ⟨msg, rfl, rfl⟩))
    | json j =>
        cases j with
        | obj fields =>
            cases hv : validateTsunamiInput fields with
            | error errs =>
                have h1 := predict_of_validation_error model hv
                exact Or.inr (Or.inl ⟨errs, h1, by rw [h1]; rfl⟩)
            | ok inp =>
                cases model with
                | none =>
                    have h1 := predict_of_ok_none hv
                    exact Or.inr (Or.inr (Or.inl ⟨h1, by rw [h1]; rfl⟩))
                | some m =>
                    cases hp : m (featureRow inp) with
                    | error msg =>
                        have h1 := predict_of_predict_error hv hp
                        exact Or.inr (Or.inr (Or.inr ⟨msg, h1, by rw [h1]; rfl⟩))
                    | ok p =>
                        have h1 := predict_of_predict_ok hv hp
                        exact Or.inl ⟨inp, translateLabel p, h1,
                          by rw [h1]; rfl, translateLabel_cases p⟩
        | num q => exact Or.inr (Or.inr (Or.inr ⟨kwargsTypeError (Json.num q), rfl, rfl⟩))
        | str s => exact Or.inr (Or.inr (Or.inr ⟨kwargsTypeError (Json.str s), rfl, rfl⟩))
        | bool b => exact Or.inr (Or.inr (Or.inr ⟨kwargsTypeError (Json.bool b), rfl, rfl⟩))
        | null => exact Or.inr (Or.inr (Or.inr ⟨kwargsTypeError Json.null, rfl, rfl⟩))
        | arr elems => exact Or.inr (Or.inr (Or.inr ⟨kwargsTypeError (Json.arr elems), rfl, rfl⟩))
  · exact fun m fields inp msg hv hp => predict_of_predict_error hv hp

/-- Claim C7 witness: a predict call raising with message "boom" on a
concrete validated body is reported as the internal error carrying
"boom". -/
theorem handler_total_wellformed_witness :
    predict_tsunami (some (fun _ => Except.error "boom"))
        (ReqBody.json (Json.obj
          [("magnitude", Json.num 8), ("depth", Json.num 10),
           ("latitude", Json.num (-4)), ("longitude", Json.num 96),
           ("dmin", Json.num 12)])) =
      internalErrorResp "boom" :=
  handler_total_wellformed.2 (fun _ => Except.error "boom")
    [("magnitude", Json.num 8), ("depth", Json.num 10),
     ("latitude", Json.num (-4)), ("longitude", Json.num 96),
     ("dmin", Json.num 12)]
    ⟨8, 10, -4, 96, 12⟩ "boom" rfl rfl
